import Mathlib

/-!
Shallow embedding of the cache-backed request-fulfillment pipeline of
`src/server.js` (a YouTube-API reverse proxy with TTL caching and a
quota-exhaustion flag).  Pure JS values are modelled as a small JSON type,
the NodeCache instance as an association list of entries with absolute
expiry instants, the process-wide quota flag as an explicit state record,
and each `fetch` outcome as an inductive oracle value supplied to the
handler.  Time is an explicit `Int` parameter (milliseconds, as
`Date.now()` in the source).
-/

set_option autoImplicit false

namespace Proxy

/-- JSON values, the shape of parsed upstream bodies and of responses. -/
inductive JVal where
  | str : String → JVal
  | num : Int → JVal
  | bool : Bool → JVal
  | null : JVal
  | arr : List JVal → JVal
  | obj : List (String × JVal) → JVal

/-- A top-level JSON object: the payloads this server caches and returns. -/
abbrev Payload := List (String × JVal)

/-- Field lookup on a JSON object (JS property access). -/
def jget (p : Payload) (k : String) : Option JVal :=
  p.lookup k

/-- `{ ...p, k: v }`: spread plus one property; the new binding wins. -/
def jset (p : Payload) (k : String) (v : JVal) : Payload :=
  p.filter (fun kv => kv.1 ≠ k) ++ [(k, v)]

/-- JS truthiness of a JSON value. -/
def jsTruthy : JVal → Bool
  | .str s => s ≠ ""
  | .num n => n ≠ 0
  | .bool b => b
  | .null => false
  | .arr _ => true
  | .obj _ => true

/-- JS `v.length === 0` (undefined `length` compares unequal to 0). -/
def jsLengthZero : JVal → Bool
  | .str s => s = ""
  | .arr xs => xs.isEmpty
  | _ => false

/-! ## JS string primitives used by the key computation (`.toLowerCase()`,
`.trim()`) and by `parseInt`. -/

/-- Code points `String.prototype.trim` removes (WhiteSpace ∪ LineTerminator). -/
def wsCodes : List Nat :=
  [9, 10, 11, 12, 13, 32, 0xa0, 0x1680, 0x2000, 0x2001, 0x2002, 0x2003,
   0x2004, 0x2005, 0x2006, 0x2007, 0x2008, 0x2009, 0x200a, 0x2028, 0x2029,
   0x202f, 0x205f, 0x3000, 0xfeff]

def isWsChar (c : Char) : Bool :=
  c.toNat ∈ wsCodes

/-- `toLowerCase` on one character (ASCII range, the range the keys use). -/
def lowerChar (c : Char) : Char :=
  if 65 ≤ c.toNat ∧ c.toNat ≤ 90 then Char.ofNat (c.toNat + 32) else c

def trimLeftL (l : List Char) : List Char :=
  l.dropWhile isWsChar

def trimRightL (l : List Char) : List Char :=
  (trimLeftL l.reverse).reverse

def trimL (l : List Char) : List Char :=
  trimLeftL (trimRightL l)

/-- JS `s.trim()`. -/
def jsTrim (s : String) : String :=
  ⟨trimL s.data⟩

/-- JS `s.toLowerCase()`. -/
def jsLower (s : String) : String :=
  ⟨s.data.map lowerChar⟩

/-- Digit run value for `parseInt(_, 10)`. -/
def digitsVal : List Char → Option Nat
  | l =>
    let ds := l.takeWhile Char.isDigit
    if ds.isEmpty then none else some (ds.foldl (fun a c => a * 10 + (c.toNat - 48)) 0)

/-- JS `parseInt(s, 10)`: leading whitespace, optional sign, digit run;
`none` models `NaN`. -/
def parseIntJS (s : String) : Option Int :=
  match s.data.dropWhile isWsChar with
  | '-' :: rest => (digitsVal rest).map (fun n => -(n : Int))
  | '+' :: rest => (digitsVal rest).map (fun n => (n : Int))
  | l => (digitsVal l).map (fun n => (n : Int))

/-- `Math.min(parseInt(req.query.maxResults, 10) || 10, 50)` — `NaN` and `0`
are falsy, so both fall back to 10; only a ceiling of 50 is applied. -/
def effMaxResults (mr : Option String) : Int :=
  let parsed : Option Int := mr.bind parseIntJS
  let base : Int :=
    match parsed with
    | none => 10
    | some v => if v = 0 then 10 else v
  min base 50

/-- `` `search_${query.toLowerCase().trim()}_${maxResults}` ``. -/
def searchCacheKey (query : String) (maxResults : Int) : String :=
  "search_" ++ jsTrim (jsLower query) ++ "_" ++ toString maxResults

/-- `` `video_${videoId}` ``. -/
def videoCacheKey (videoId : String) : String :=
  "video_" ++ videoId

/-! ## NodeCache model: `new NodeCache({ stdTTL: 7200, checkperiod: 120 })`.
Each stored entry carries an absolute expiry instant `now + stdTTL` (ms);
`get` treats an entry whose expiry lies in the past as absent (node-cache's
lazy expiration), `keys` counts physically present entries. -/

structure CEntry where
  payload : Payload
  expiresAt : Int

abbrev Cache := List (String × CEntry)

/-- Configured TTL in milliseconds (`stdTTL: 7200` seconds). -/
def STD_TTL_MS : Int := 7200000

/-- `myCache.get(key)`: absent if missing or logically expired. -/
def cacheGet (c : Cache) (now : Int) (k : String) : Option Payload :=
  match c.lookup k with
  | some e => if e.expiresAt < now then none else some e.payload
  | none => none

/-- `myCache.set(key, payload)` with the configured default TTL. -/
def cacheSet (c : Cache) (now : Int) (k : String) (p : Payload) : Cache :=
  (k, ⟨p, now + STD_TTL_MS⟩) :: c.filter (fun kv => kv.1 ≠ k)

/-- `myCache.keys().length`: physically present entries, expired or not. -/
def cacheKeyCount (c : Cache) : Nat :=
  c.length

/-! ## Quota state and the fetch oracle. -/

/-- The process-wide mutable pair `quotaExhausted` / `lastQuotaCheck`. -/
structure QuotaSt where
  quotaExhausted : Bool
  lastQuotaCheck : Int

/-- `QUOTA_CHECK_INTERVAL = 300000` (ms). -/
def QUOTA_CHECK_INTERVAL : Int := 300000

/-- Outcome of one `fetch`: either the promise rejected (timeout, DNS,
transport — `netError`), or a response arrived with an HTTP status, a
content-type that is or is not JSON, the raw text, and the result of
`JSON.parse` on it (`none` when parsing fails; bodies are modelled as
top-level JSON objects). -/
inductive Fetched where
  | netError : String → Fetched
  | resp : Int → Bool → String → Option Payload → Fetched

/-- `response.ok`: status in the 2xx range. -/
def statusOk (status : Int) : Bool :=
  200 ≤ status ∧ status ≤ 299

/-- `data.error?.errors?.some(e => e.reason === "quotaExceeded")`. -/
def hasQuotaReason (body : Payload) : Bool :=
  match jget body "error" with
  | some (.obj ef) =>
    match ef.lookup "errors" with
    | some (.arr es) =>
      es.any fun e =>
        match e with
        | .obj e1 =>
          match e1.lookup "reason" with
          | some (.str r) => r = "quotaExceeded"
          | _ => false
        | _ => false
    | _ => false
  | _ => false

/-- `data.error?.message || \x60YouTube API error: ${response.status}\x60`
(an empty upstream message is falsy and also falls back). -/
def upstreamErrMsg (body : Payload) (status : Int) : String :=
  match jget body "error" with
  | some (.obj ef) =>
    match ef.lookup "message" with
    | some (.str m) => if m = "" then "YouTube API error: " ++ toString status else m
    | _ => "YouTube API error: " ++ toString status
  | _ => "YouTube API error: " ++ toString status

/-! ## `makeYouTubeApiCall(url, cacheKey, description)` -/

/-- Result of one `makeYouTubeApiCall`: the returned value (or the message of
the error it threw) together with the cache and quota state afterwards.
`result = .ok (data, fromCache)` mirrors `{ success: true, data, fromCache }`. -/
structure CallOut where
  result : Except String (Payload × Bool)
  cache : Cache
  quota : QuotaSt

/-- The `catch` block: on any thrown error, retry the cache; a hit is
returned annotated `_fromCache` / `_apiError`, otherwise rethrow. -/
def callCatch (msg : String) (now : Int) (key : String) (c : Cache)
    (q : QuotaSt) : CallOut :=
  match cacheGet c now key with
  | some cached =>
    ⟨.ok (jset (jset cached "_fromCache" (.bool true)) "_apiError" (.str msg), true), c, q⟩
  | none => ⟨.error msg, c, q⟩

/-- `makeYouTubeApiCall`, as a pure function of the fetch outcome, the
current instant, the cache key and the ambient state. -/
def makeYouTubeApiCall (f : Fetched) (now : Int) (key : String) (c : Cache)
    (q : QuotaSt) : CallOut :=
  match f with
  | .netError msg => callCatch msg now key c q
  | .resp status ctJson raw parsed =>
    if ¬ctJson then
      callCatch ("Non-JSON response: " ++ (raw.take 200)) now key c q
    else
      match parsed with
      | none => callCatch ("Invalid JSON: " ++ (raw.take 200)) now key c q
      | some data =>
        if ¬statusOk status then
          if hasQuotaReason data then
            let q' : QuotaSt := ⟨true, now⟩
            match cacheGet c now key with
            | some cached =>
              ⟨.ok (jset (jset cached "_fromCache" (.bool true))
                      "_quotaExceeded" (.bool true), true), c, q'⟩
            | none =>
              -- the throw lands in the same catch, whose cache retry also
              -- misses, so the error propagates
              ⟨.error "Quota exceeded and no cached data available", c, q'⟩
          else
            callCatch (upstreamErrMsg data status) now key c q
        else
          ⟨.ok (data, false), cacheSet c now key data, q⟩

/-! ## Route handlers -/

/-- Observable result of one request: HTTP status, JSON body, the cache and
quota state afterwards, and whether an upstream call was issued. -/
structure HResult where
  status : Int
  body : Payload
  cache : Cache
  quota : QuotaSt
  upstreamCalled : Bool

/-- `!(!result.data.items || !Array.isArray(result.data.items))`: the search
route's shape test — `items` must be present and an array (falsy values and
non-arrays both fail, exactly as in the source's combined test). -/
def searchItemsValid (data : Payload) : Bool :=
  match jget data "items" with
  | some (.arr _) => true
  | _ => false

/-- `GET /api/Youtube` (search). `q` and `maxResults` are the raw query
parameters (`none` when absent); `f` is the outcome `fetch` would have. -/
def searchHandler (q : Option String) (mr : Option String) (f : Fetched)
    (now : Int) (c : Cache) (qs : QuotaSt) : HResult :=
  let maxResults := effMaxResults mr
  match q with
  | none =>
    ⟨400, [("error", .str "Parametr zapytania \"q\" jest wymagany."),
           ("code", .num 400)], c, qs, false⟩
  | some query =>
    if query = "" ∨ jsTrim query = "" then
      ⟨400, [("error", .str "Parametr zapytania \"q\" jest wymagany."),
             ("code", .num 400)], c, qs, false⟩
    else
      let key := searchCacheKey query maxResults
      match cacheGet c now key with
      | some cached => ⟨200, jset cached "_fromCache" (.bool true), c, qs, false⟩
      | none =>
        if qs.quotaExhausted then
          ⟨429, [("error", .str "YouTube API quota exceeded"),
                 ("code", .num 429),
                 ("quotaExceeded", .bool true),
                 ("message", .str "Serwer osiągnął limit zapytań do YouTube API. Cache może zawierać starsze dane."),
                 ("retryAfter", .str "Spróbuj ponownie za kilka godzin"),
                 ("cacheAvailable", .bool (cacheKeyCount c > 0))], c, qs, false⟩
        else
          let r := makeYouTubeApiCall f now key c qs
          match r.result with
          | .ok (data, _) =>
            if searchItemsValid data then
              ⟨200, data, r.cache, r.quota, true⟩
            else
              ⟨502, [("error", .str "Invalid response structure from YouTube API")],
               r.cache, r.quota, true⟩
          | .error msg =>
            if r.quota.quotaExhausted then
              ⟨429, [("error", .str "YouTube API quota exceeded"),
                     ("details", .str msg),
                     ("quotaExceeded", .bool true),
                     ("code", .num 429)], r.cache, r.quota, true⟩
            else
              ⟨500, [("error", .str "Internal server error"),
                     ("details", .str msg),
                     ("quotaExceeded", .bool false),
                     ("code", .num 500)], r.cache, r.quota, true⟩

/-- `!result.data.items || result.data.items.length === 0` (the video
route's emptiness test; no `Array.isArray` here). -/
def videoItemsMissing (data : Payload) : Bool :=
  match jget data "items" with
  | none => true
  | some v => ¬jsTruthy v ∨ jsLengthZero v

/-- `GET /api/Youtube/video/:videoId`. -/
def videoHandler (videoId : String) (f : Fetched) (now : Int) (c : Cache)
    (qs : QuotaSt) : HResult :=
  if videoId = "" ∨ jsTrim videoId = "" then
    ⟨400, [("error", .str "Parametr \"videoId\" jest wymagany.")], c, qs, false⟩
  else
    let key := videoCacheKey videoId
    match cacheGet c now key with
    | some cached => ⟨200, jset cached "_fromCache" (.bool true), c, qs, false⟩
    | none =>
      if qs.quotaExhausted then
        ⟨429, [("error", .str "YouTube API quota exceeded"),
               ("code", .num 429),
               ("quotaExceeded", .bool true),
               ("message", .str "Serwer osiągnął limit zapytań do YouTube API.")],
         c, qs, false⟩
      else
        let r := makeYouTubeApiCall f now key c qs
        match r.result with
        | .ok (data, _) =>
          if videoItemsMissing data then
            ⟨404, [("error", .str "Video not found")], r.cache, r.quota, true⟩
          else
            ⟨200, data, r.cache, r.quota, true⟩
        | .error msg =>
          if r.quota.quotaExhausted then
            ⟨429, [("error", .str "YouTube API quota exceeded"),
                   ("details", .str msg),
                   ("quotaExceeded", .bool true),
                   ("code", .num 429)], r.cache, r.quota, true⟩
          else
            ⟨500, [("error", .str "Internal error fetching video details"),
                   ("details", .str msg),
                   ("quotaExceeded", .bool false),
                   ("code", .num 500)], r.cache, r.quota, true⟩

/-- `DELETE /api/cache`: snapshot `keys()`, `flushAll()`, report the count. -/
def flushHandler (c : Cache) (qs : QuotaSt) : HResult :=
  ⟨200, [("message", .str "Cache cleared"),
         ("clearedKeys", .num (cacheKeyCount c)),
         ("quotaReset", .bool false)], [], qs, false⟩

/-- `checkQuotaStatus()`: the debounced probe.  Returns the boolean the
function returns together with the quota state afterwards.  In the probe,
`response.json().catch(() => ({}))` turns any unparseable body into `{}`. -/
def checkQuotaStatus (f : Fetched) (now : Int) (qs : QuotaSt) : Bool × QuotaSt :=
  if now - qs.lastQuotaCheck < QUOTA_CHECK_INTERVAL ∧ qs.quotaExhausted then
    (false, qs)
  else
    match f with
    | .netError _ => (!qs.quotaExhausted, qs)
    | .resp status _ _ parsed =>
      if ¬statusOk status ∧ hasQuotaReason (parsed.getD []) then
        (false, ⟨true, now⟩)
      else
        (true, ⟨false, now⟩)

/-- The body of the first fetch result in `Fetched` carrying a parsed JSON
object, if any: the only payload an upstream interaction can contribute. -/
def fetchedBody : Fetched → Option Payload
  | .resp _ _ _ p => p
  | .netError _ => none

/-! ## Concrete inputs used to exercise the model -/

/-- An upstream error body carrying the quota-exceeded reason code. -/
def quotaBody : Payload :=
  [("error", .obj [("errors", .arr [.obj [("reason", .str "quotaExceeded")]])])]

/-- A cache holding one logically expired entry for `search_cats_5`
(expiry 1000, long before the request instant 10000000). -/
def c1Cache : Cache :=
  [("search_cats_5", ⟨[("kind", .str "old")], 1000⟩)]

/-- A search run at instant 10000000 whose upstream fails with the
quota-exceeded signal while only the expired entry is present. -/
def c1Run : HResult :=
  searchHandler (some "cats") (some "5") (.resp 403 true "" (some quotaBody))
    10000000 c1Cache ⟨false, 0⟩

/-- A nonempty cache (one unrelated search entry). -/
def c2Cache : Cache :=
  [("search_x", ⟨[], 99⟩)]

/-- A video-detail run with the quota flag exhausted and a nonempty cache. -/
def c2Run : HResult :=
  videoHandler "abc" (.netError "unused") 0 c2Cache ⟨true, 0⟩

/-- The same video-detail run against an empty cache. -/
def c2RunEmpty : HResult :=
  videoHandler "abc" (.netError "unused") 0 [] ⟨true, 0⟩

/-- A 2xx upstream body with no `items` field (shape-invalid for search). -/
def c3Body : Payload :=
  [("kind", .str "x")]

/-- A search run whose upstream succeeds with the shape-invalid body. -/
def c3Run : HResult :=
  searchHandler (some "cats") none (.resp 200 true "" (some c3Body)) 0 [] ⟨false, 0⟩

/-- A shape-valid upstream body: one item under `items`. -/
def okItemsBody : Payload :=
  [("items", .arr [.obj [("id", .str "x")]])]

end Proxy

namespace Proxy

/-! ## Helper lemmas -/

theorem toNat_ofNat_small (n : Nat) (h : n < 55296) : (Char.ofNat n).toNat = n := by
  have hv : n.isValidChar := Or.inl h
  rw [Char.ofNat, dif_pos hv]
  rfl

theorem isWs_lowerChar (c : Char) : isWsChar (lowerChar c) = isWsChar c := by
  unfold lowerChar
  by_cases h : 65 ≤ c.toNat ∧ c.toNat ≤ 90
  · rw [if_pos h]
    have h32 : (Char.ofNat (c.toNat + 32)).toNat = c.toNat + 32 :=
      toNat_ofNat_small _ (by omega)
    have hl : isWsChar (Char.ofNat (c.toNat + 32)) = false := by
      unfold isWsChar
      rw [h32]
      simp only [wsCodes, List.mem_cons, List.not_mem_nil, or_false, decide_eq_false_iff_not]
      omega
    have hr : isWsChar c = false := by
      unfold isWsChar
      simp only [wsCodes, List.mem_cons, List.not_mem_nil, or_false, decide_eq_false_iff_not]
      omega
    rw [hl, hr]
  · rw [if_neg h]

theorem dropWhile_lower (l : List Char) :
    (l.map lowerChar).dropWhile isWsChar = (l.dropWhile isWsChar).map lowerChar := by
  induction l with
  | nil => rfl
  | cons a t ih =>
    simp only [List.map_cons, List.dropWhile_cons, isWs_lowerChar]
    cases h : isWsChar a
    · simp [h]
    · simp [h, ih]

theorem trimRightL_lower (l : List Char) :
    trimRightL (l.map lowerChar) = (trimRightL l).map lowerChar := by
  unfold trimRightL trimLeftL
  rw [← List.map_reverse, dropWhile_lower, List.map_reverse]

theorem trimL_lower (l : List Char) :
    trimL (l.map lowerChar) = (trimL l).map lowerChar := by
  unfold trimL trimLeftL
  rw [trimRightL_lower, dropWhile_lower]

theorem jsTrim_jsLower (s : String) : jsTrim (jsLower s) = jsLower (jsTrim s) := by
  unfold jsTrim jsLower
  exact congrArg String.mk (trimL_lower s.data)

/-- `C9`: `DELETE /api/cache` clears every entry, reports the number of keys
present before clearing, and leaves the quota state untouched. -/
theorem flushAll_clears_counts_and_preserves_quota (c : Cache) (qs : QuotaSt) :
    (flushHandler c qs).status = 200 ∧
    (flushHandler c qs).body =
      [("message", .str "Cache cleared"),
       ("clearedKeys", .num (cacheKeyCount c)),
       ("quotaReset", .bool false)] ∧
    (flushHandler c qs).cache = [] ∧
    (∀ (now : Int) (k : String), cacheGet (flushHandler c qs).cache now k = none) ∧
    (flushHandler c qs).quota = qs := by
  exact ⟨rfl, rfl, rfl, fun _ _ => rfl, rfl⟩

/-- `C8`: a search request whose query text is absent, empty, or
whitespace-only gets a 400 response at once; the cache and quota state pass
through unchanged, no upstream call is made, and the response does not
depend on the cache, the quota flag or the upstream at all. -/
theorem empty_query_rejected_without_side_effects
    (q : Option String) (mr : Option String) (f : Fetched) (now : Int)
    (c : Cache) (qs : QuotaSt)
    (hq : q = none ∨ ∃ s, q = some s ∧ jsTrim s = "") :
    searchHandler q mr f now c qs =
      ⟨400, [("error", .str "Parametr zapytania \"q\" jest wymagany."),
             ("code", .num 400)], c, qs, false⟩ := by
  rcases hq with rfl | ⟨s, rfl, hs⟩
  · rfl
  · simp only [searchHandler]
    rw [if_pos (Or.inr hs)]

/-- `C8` witness at `q = "  "` (whitespace-only). -/
theorem empty_query_rejected_without_side_effects_witness :
    searchHandler (some "  ") none (.netError "unused") 0 [] ⟨false, 0⟩ =
      ⟨400, [("error", .str "Parametr zapytania \"q\" jest wymagany."),
             ("code", .num 400)], [], ⟨false, 0⟩, false⟩ :=
  empty_query_rejected_without_side_effects (some "  ") none (.netError "unused") 0 []
    ⟨false, 0⟩ (Or.inr ⟨"  ", rfl, rfl⟩)

/-- `C5`: a live cache hit is served as 200 with the payload annotated
`_fromCache:true`; the outcome is literally independent of the quota state
and of the upstream oracle (both are universally quantified and absent from
the right-hand side), and no upstream call is made.  The two routes are
covered by independent conjuncts, each with only its own hypotheses. -/
theorem cache_hit_bypasses_quota_and_upstream :
    (∀ (s : String) (mr : Option String) (f : Fetched) (now : Int)
       (c : Cache) (qs : QuotaSt) (cs : Payload),
       jsTrim s ≠ "" →
       cacheGet c now (searchCacheKey s (effMaxResults mr)) = some cs →
       searchHandler (some s) mr f now c qs =
         ⟨200, jset cs "_fromCache" (.bool true), c, qs, false⟩) ∧
    (∀ (vid : String) (f : Fetched) (now : Int) (c : Cache) (qs : QuotaSt)
       (cv : Payload),
       jsTrim vid ≠ "" →
       cacheGet c now (videoCacheKey vid) = some cv →
       videoHandler vid f now c qs =
         ⟨200, jset cv "_fromCache" (.bool true), c, qs, false⟩) := by
  constructor
  · intro s mr f now c qs cs hs hgs
    have hs' : ¬(s = "" ∨ jsTrim s = "") := by
      rintro (rfl | h)
      · exact hs rfl
      · exact hs h
    simp only [searchHandler]
    rw [if_neg hs', hgs]
  · intro vid f now c qs cv hv hgv
    have hv' : ¬(vid = "" ∨ jsTrim vid = "") := by
      rintro (rfl | h)
      · exact hv rfl
      · exact hv h
    simp only [videoHandler]
    rw [if_neg hv', hgv]

/-- `C5` witness: concrete live entries under quota exhaustion are still
served from cache, each route exercised on a cache holding only its own
kind of key. -/
theorem cache_hit_bypasses_quota_and_upstream_witness :
    searchHandler (some "cats") (some "5") (.netError "unused") 0
        [("search_cats_5", ⟨[("items", .arr [])], 99⟩)] ⟨true, 7⟩ =
      ⟨200, jset [("items", .arr [])] "_fromCache" (.bool true),
       [("search_cats_5", ⟨[("items", .arr [])], 99⟩)], ⟨true, 7⟩, false⟩ ∧
    videoHandler "abc" (.netError "unused") 0
        [("video_abc", ⟨[("items", .arr [.null])], 99⟩)] ⟨true, 7⟩ =
      ⟨200, jset [("items", .arr [.null])] "_fromCache" (.bool true),
       [("video_abc", ⟨[("items", .arr [.null])], 99⟩)], ⟨true, 7⟩, false⟩ :=
  ⟨cache_hit_bypasses_quota_and_upstream.1 "cats" (some "5") (.netError "unused") 0
      [("search_cats_5", ⟨[("items", .arr [])], 99⟩)] ⟨true, 7⟩ [("items", .arr [])]
      (by decide) rfl,
   cache_hit_bypasses_quota_and_upstream.2 "abc" (.netError "unused") 0
      [("video_abc", ⟨[("items", .arr [.null])], 99⟩)] ⟨true, 7⟩
      [("items", .arr [.null])] (by decide) rfl⟩

end Proxy

namespace Proxy

/-- `C4`: the quota flag can flip from `EXHAUSTED` to `OK` only when the
probe's network call resolved (a response arrived, carrying no
quota-exceeded signal) and the debounce window had elapsed; a probe whose
own network call fails preserves the quota state bit-for-bit. -/
theorem quota_probe_flip_requires_resolved_call (f : Fetched) (now : Int) (qs : QuotaSt)
    (hex : qs.quotaExhausted = true) :
    ((checkQuotaStatus f now qs).2.quotaExhausted = false →
      (∃ status ctJson raw parsed, f = .resp status ctJson raw parsed ∧
        ¬(statusOk status = false ∧ hasQuotaReason (parsed.getD []) = true)) ∧
      QUOTA_CHECK_INTERVAL ≤ now - qs.lastQuotaCheck) ∧
    (∀ msg, f = .netError msg → (checkQuotaStatus f now qs).2 = qs) := by
  constructor
  · intro hflip
    cases f with
    | netError msg =>
      simp only [checkQuotaStatus] at hflip
      split at hflip
      · simp [hex] at hflip
      · simp [hex] at hflip
    | resp status ctJson raw parsed =>
      simp only [checkQuotaStatus] at hflip
      split at hflip
      · simp [hex] at hflip
      · next hdeb =>
        have hdeb2 : QUOTA_CHECK_INTERVAL ≤ now - qs.lastQuotaCheck := by
          rcases not_and_or.mp hdeb with h1 | h1
          · omega
          · rw [hex] at h1
            exact absurd rfl h1
        refine ⟨⟨status, ctJson, raw, parsed, rfl, ?_⟩, hdeb2⟩
        rintro ⟨h1, h2⟩
        split at hflip
        · simp at hflip
        · next hcond => exact hcond ⟨by simp [h1], h2⟩
  · rintro msg rfl
    unfold checkQuotaStatus
    split
    · rfl
    · rfl

/-- `C4` witness: a resolved 2xx probe after the debounce window flips the
flag to OK, and a concrete network-failing probe leaves the state intact. -/
theorem quota_probe_flip_requires_resolved_call_witness :
    ((∃ status ctJson raw parsed,
        (.resp 200 true "" none : Fetched) = .resp status ctJson raw parsed ∧
        ¬(statusOk status = false ∧ hasQuotaReason (parsed.getD []) = true)) ∧
      QUOTA_CHECK_INTERVAL ≤ (400000 : Int) - 0) ∧
    (checkQuotaStatus (.netError "dns failure") 400000 ⟨true, 0⟩).2 = ⟨true, 0⟩ :=
  ⟨(quota_probe_flip_requires_resolved_call (.resp 200 true "" none) 400000 ⟨true, 0⟩
      rfl).1 rfl,
   (quota_probe_flip_requires_resolved_call (.netError "dns failure") 400000 ⟨true, 0⟩
      rfl).2 "dns failure" rfl⟩

/-- `C6`: the search cache key is invariant under letter-case and
surrounding-whitespace differences of the query text, for equal result
counts. -/
theorem cacheKey_case_ws_insensitive (q1 q2 : String) (n1 n2 : Int)
    (hv1 : jsTrim q1 ≠ "") (hv2 : jsTrim q2 ≠ "")
    (hq : jsLower (jsTrim q1) = jsLower (jsTrim q2)) (hn : n1 = n2) :
    searchCacheKey q1 n1 = searchCacheKey q2 n2 := by
  unfold searchCacheKey
  rw [hn, jsTrim_jsLower, jsTrim_jsLower, hq]

/-- `C6` witness: `"  CaTs "` and `"cats"` with count 5 share a key. -/
theorem cacheKey_case_ws_insensitive_witness :
    searchCacheKey "  CaTs " 5 = searchCacheKey "cats" 5 :=
  cacheKey_case_ws_insensitive "  CaTs " "cats" 5 5 (by decide) (by decide)
    (by decide) rfl

/-- `C7` counterexample: `maxResults=-5` parses to `-5`, is not caught by
the `|| 10` fallback (only falsy values are), and `Math.min(-5, 50) = -5`
escapes the claimed 1..50 range — there is no lower clamp. -/
theorem maxResults_clamp_counterexample :
    effMaxResults (some "-5") = -5 ∧ ¬(1 ≤ effMaxResults (some "-5") ∧
      effMaxResults (some "-5") ≤ 50) := by
  decide

/-- `C7` amended: the effective `maxResults` never exceeds 50 and defaults
to 10 when the parameter is absent or unparsable (or parses to 0, which is
falsy); a value parsing to at least 1 is ceiling-clamped into 1..50; but a
negative parsed value passes through unclamped, below the claimed range. -/
theorem maxResults_default_and_ceiling (mr : Option String) :
    effMaxResults mr ≤ 50 ∧
    (mr.bind parseIntJS = none → effMaxResults mr = 10) ∧
    (∀ v : Int, mr.bind parseIntJS = some v → 1 ≤ v →
      effMaxResults mr = min v 50 ∧ 1 ≤ effMaxResults mr) ∧
    (∀ v : Int, mr.bind parseIntJS = some v → v < 0 → effMaxResults mr = v) ∧
    (∀ v : Int, mr.bind parseIntJS = some v → v = 0 → effMaxResults mr = 10) := by
  cases h : mr.bind parseIntJS with
  | none =>
    simp only [effMaxResults, h]
    refine ⟨by norm_num, fun _ => by norm_num, ?_, ?_, ?_⟩
    · intro v hv
      exact absurd hv (by simp)
    · intro v hv
      exact absurd hv (by simp)
    · intro v hv
      exact absurd hv (by simp)
  | some v =>
    simp only [effMaxResults, h]
    refine ⟨min_le_right _ _, fun hc => absurd hc (by simp), ?_, ?_, ?_⟩
    · intro w hw h1
      obtain rfl : v = w := Option.some.inj hw
      rw [if_neg (by omega)]
      exact ⟨rfl, le_min h1 (by norm_num)⟩
    · intro w hw hneg
      obtain rfl : v = w := Option.some.inj hw
      rw [if_neg (by omega)]
      exact min_eq_left (by omega)
    · intro w hw hzero
      obtain rfl : v = w := Option.some.inj hw
      rw [if_pos hzero]
      norm_num

/-- `C7` amended witness: concrete defaulting (absent, unparsable and
zero-parse inputs) and in-range clamping. -/
theorem maxResults_default_and_ceiling_witness :
    (effMaxResults (some "7") = min 7 50 ∧ 1 ≤ effMaxResults (some "7")) ∧
    effMaxResults none = 10 ∧ effMaxResults (some "abc") = 10 ∧
    effMaxResults (some "0") = 10 :=
  ⟨(maxResults_default_and_ceiling (some "7")).2.2.1 7 rfl (by norm_num),
   (maxResults_default_and_ceiling none).2.1 rfl,
   (maxResults_default_and_ceiling (some "abc")).2.1 rfl,
   (maxResults_default_and_ceiling (some "0")).2.2.2.2 0 rfl rfl⟩

end Proxy

namespace Proxy

/-- `C1` counterexample: a physically present but logically expired entry
does not trigger the stale-cache fallback — with the quota-exceeded
upstream failure the run returns 429, not 200, although "a cache entry
(even a logically expired one) exists for the request's key". -/
theorem expired_entry_no_stale_fallback_counterexample :
    (c1Cache.lookup "search_cats_5").isSome = true ∧
    cacheGet c1Cache 10000000 "search_cats_5" = none ∧
    hasQuotaReason quotaBody = true ∧
    c1Run.status = 429 ∧ ¬c1Run.status = 200 := by
  refine ⟨rfl, rfl, rfl, rfl, by decide⟩

/-- `C1` amended: the stale fallback fires only on an entry still live at
the in-call cache retry (first conjunct); after a cache-first miss no live
entry remains, so on a quota-exceeded upstream failure both routes return
429 with `quotaExceeded:true` whether the key has no entry at all or only
an expired one. -/
theorem quota_failure_stale_fallback_amended (s vid : String) (mr : Option String)
    (now : Int) (c c2 : Cache) (qs : QuotaSt) (status : Int) (raw : String)
    (body cached : Payload)
    (hs : jsTrim s ≠ "") (hv : jsTrim vid ≠ "")
    (hqs : qs.quotaExhausted = false)
    (hbad : statusOk status = false) (hqr : hasQuotaReason body = true)
    (hmissS : cacheGet c now (searchCacheKey s (effMaxResults mr)) = none)
    (hmissV : cacheGet c now (videoCacheKey vid) = none)
    (hlive : cacheGet c2 now (searchCacheKey s (effMaxResults mr)) = some cached) :
    (makeYouTubeApiCall (.resp status true raw (some body)) now
        (searchCacheKey s (effMaxResults mr)) c2 qs).result =
      .ok (jset (jset cached "_fromCache" (.bool true)) "_quotaExceeded" (.bool true),
           true) ∧
    searchHandler (some s) mr (.resp status true raw (some body)) now c qs =
      ⟨429, [("error", .str "YouTube API quota exceeded"),
             ("details", .str "Quota exceeded and no cached data available"),
             ("quotaExceeded", .bool true),
             ("code", .num 429)], c, ⟨true, now⟩, true⟩ ∧
    videoHandler vid (.resp status true raw (some body)) now c qs =
      ⟨429, [("error", .str "YouTube API quota exceeded"),
             ("details", .str "Quota exceeded and no cached data available"),
             ("quotaExceeded", .bool true),
             ("code", .num 429)], c, ⟨true, now⟩, true⟩ := by
  have hs' : ¬(s = "" ∨ jsTrim s = "") := by
    rintro (rfl | h)
    · exact hs rfl
    · exact hs h
  have hv' : ¬(vid = "" ∨ jsTrim vid = "") := by
    rintro (rfl | h)
    · exact hv rfl
    · exact hv h
  refine ⟨?_, ?_, ?_⟩
  · simp [makeYouTubeApiCall, hbad, hqr, hlive]
  · simp [searchHandler, makeYouTubeApiCall, hs', hmissS, hqs, hbad, hqr]
  · simp [videoHandler, makeYouTubeApiCall, hv', hmissV, hqs, hbad, hqr]

/-- `C1` amended witness: a live entry makes the call wrapper return the
annotated payload, and with only misses both routes give 429. -/
theorem quota_failure_stale_fallback_amended_witness :
    (makeYouTubeApiCall (.resp 403 true "" (some quotaBody)) 0
        (searchCacheKey "cats" (effMaxResults (some "5")))
        [("search_cats_5", ⟨[("kind", .str "v")], 99⟩)] ⟨false, 0⟩).result =
      .ok (jset (jset [("kind", .str "v")] "_fromCache" (.bool true))
             "_quotaExceeded" (.bool true), true) ∧
    searchHandler (some "cats") (some "5") (.resp 403 true "" (some quotaBody)) 0 []
        ⟨false, 0⟩ =
      ⟨429, [("error", .str "YouTube API quota exceeded"),
             ("details", .str "Quota exceeded and no cached data available"),
             ("quotaExceeded", .bool true),
             ("code", .num 429)], [], ⟨true, 0⟩, true⟩ ∧
    videoHandler "abc" (.resp 403 true "" (some quotaBody)) 0 [] ⟨false, 0⟩ =
      ⟨429, [("error", .str "YouTube API quota exceeded"),
             ("details", .str "Quota exceeded and no cached data available"),
             ("quotaExceeded", .bool true),
             ("code", .num 429)], [], ⟨true, 0⟩, true⟩ :=
  quota_failure_stale_fallback_amended "cats" "abc" (some "5") 0 []
    [("search_cats_5", ⟨[("kind", .str "v")], 99⟩)] ⟨false, 0⟩ 403 ""
    quotaBody [("kind", .str "v")] (by decide) (by decide) rfl rfl rfl rfl rfl rfl

/-- `C2` counterexample: the video-detail route's quota-exhausted 429 body
carries no indicator of whether cache entries exist — it is the same
four-field literal whether the cache is nonempty or empty. -/
theorem video_429_lacks_cache_indicator_counterexample :
    c2Run.status = 429 ∧
    jget c2Run.body "quotaExceeded" = some (.bool true) ∧
    cacheKeyCount c2Cache = 1 ∧
    jget c2Run.body "cacheAvailable" = none ∧
    c2Run.body = c2RunEmpty.body ∧
    c2Run.body =
      [("error", .str "YouTube API quota exceeded"),
       ("code", .num 429),
       ("quotaExceeded", .bool true),
       ("message", .str "Serwer osiągnął limit zapytań do YouTube API.")] :=
  ⟨rfl, rfl, rfl, rfl, rfl, rfl⟩

/-- `C2` amended: under an exhausted quota flag and a cache miss, the search
route returns 429 with `quotaExceeded:true` and the `cacheAvailable`
indicator, while the video route returns 429 with `quotaExceeded:true` but
no cache indicator; neither touches the upstream oracle (it is universally
quantified and absent from the result), and cache and quota state pass
through unchanged, so repeated calls repeat the same outcome until a probe
mutates the flag. -/
theorem quota_exhausted_429_no_upstream_amended
    (s vid : String) (mr : Option String) (f : Fetched) (now : Int)
    (c : Cache) (qs : QuotaSt)
    (hex : qs.quotaExhausted = true)
    (hs : jsTrim s ≠ "")
    (hmissS : cacheGet c now (searchCacheKey s (effMaxResults mr)) = none)
    (hv : jsTrim vid ≠ "")
    (hmissV : cacheGet c now (videoCacheKey vid) = none) :
    searchHandler (some s) mr f now c qs =
      ⟨429, [("error", .str "YouTube API quota exceeded"),
             ("code", .num 429),
             ("quotaExceeded", .bool true),
             ("message", .str "Serwer osiągnął limit zapytań do YouTube API. Cache może zawierać starsze dane."),
             ("retryAfter", .str "Spróbuj ponownie za kilka godzin"),
             ("cacheAvailable", .bool (cacheKeyCount c > 0))], c, qs, false⟩ ∧
    videoHandler vid f now c qs =
      ⟨429, [("error", .str "YouTube API quota exceeded"),
             ("code", .num 429),
             ("quotaExceeded", .bool true),
             ("message", .str "Serwer osiągnął limit zapytań do YouTube API.")],
       c, qs, false⟩ := by
  have hs' : ¬(s = "" ∨ jsTrim s = "") := by
    rintro (rfl | h)
    · exact hs rfl
    · exact hs h
  have hv' : ¬(vid = "" ∨ jsTrim vid = "") := by
    rintro (rfl | h)
    · exact hv rfl
    · exact hv h
  constructor
  · simp only [searchHandler]
    rw [if_neg hs', hmissS, hex]
    simp
  · simp only [videoHandler]
    rw [if_neg hv', hmissV, hex]
    simp

/-- `C2` amended witness at a concrete exhausted state, nonempty cache. -/
theorem quota_exhausted_429_no_upstream_amended_witness :
    searchHandler (some "cats") (some "5") (.netError "unused") 0 c2Cache ⟨true, 3⟩ =
      ⟨429, [("error", .str "YouTube API quota exceeded"),
             ("code", .num 429),
             ("quotaExceeded", .bool true),
             ("message", .str "Serwer osiągnął limit zapytań do YouTube API. Cache może zawierać starsze dane."),
             ("retryAfter", .str "Spróbuj ponownie za kilka godzin"),
             ("cacheAvailable", .bool (cacheKeyCount c2Cache > 0))], c2Cache, ⟨true, 3⟩, false⟩ ∧
    videoHandler "abc" (.netError "unused") 0 c2Cache ⟨true, 3⟩ =
      ⟨429, [("error", .str "YouTube API quota exceeded"),
             ("code", .num 429),
             ("quotaExceeded", .bool true),
             ("message", .str "Serwer osiągnął limit zapytań do YouTube API.")],
       c2Cache, ⟨true, 3⟩, false⟩ :=
  quota_exhausted_429_no_upstream_amended "cats" "abc" (some "5") (.netError "unused")
    0 c2Cache ⟨true, 3⟩ rfl (by decide) rfl (by decide) rfl

/-- `C3` counterexample: a 2xx upstream body without an `items` list is
written to the cache *before* the route's shape validation, so the run
returns 502 while the shape-invalid body now sits in the cache (live). -/
theorem shape_invalid_success_cached_counterexample :
    c3Run.status = 502 ∧
    c3Run.cache.lookup "search_cats_10" = some ⟨c3Body, 7200000⟩ ∧
    cacheGet c3Run.cache 0 "search_cats_10" = some c3Body :=
  ⟨rfl, rfl, rfl⟩

/-- `C3` amended: every parse-valid 2xx upstream body is written through to
the cache with the configured TTL regardless of shape; shape-valid bodies
are then returned as 200, while shape-invalid ones yield 502 (search) or
404 (empty video detail) with the body nonetheless cached. -/
theorem upstream_success_write_through_amended (s vid : String) (mr : Option String)
    (now : Int) (c : Cache) (qs : QuotaSt) (status : Int) (raw : String)
    (body : Payload)
    (hs : jsTrim s ≠ "") (hv : jsTrim vid ≠ "")
    (hqs : qs.quotaExhausted = false)
    (hok : statusOk status = true)
    (hmissS : cacheGet c now (searchCacheKey s (effMaxResults mr)) = none)
    (hmissV : cacheGet c now (videoCacheKey vid) = none) :
    ((searchHandler (some s) mr (.resp status true raw (some body)) now c qs).cache =
       cacheSet c now (searchCacheKey s (effMaxResults mr)) body) ∧
    (searchItemsValid body = true →
      searchHandler (some s) mr (.resp status true raw (some body)) now c qs =
        ⟨200, body, cacheSet c now (searchCacheKey s (effMaxResults mr)) body, qs, true⟩) ∧
    (searchItemsValid body = false →
      searchHandler (some s) mr (.resp status true raw (some body)) now c qs =
        ⟨502, [("error", .str "Invalid response structure from YouTube API")],
         cacheSet c now (searchCacheKey s (effMaxResults mr)) body, qs, true⟩) ∧
    ((videoHandler vid (.resp status true raw (some body)) now c qs).cache =
       cacheSet c now (videoCacheKey vid) body) ∧
    (videoItemsMissing body = false →
      videoHandler vid (.resp status true raw (some body)) now c qs =
        ⟨200, body, cacheSet c now (videoCacheKey vid) body, qs, true⟩) ∧
    (videoItemsMissing body = true →
      videoHandler vid (.resp status true raw (some body)) now c qs =
        ⟨404, [("error", .str "Video not found")],
         cacheSet c now (videoCacheKey vid) body, qs, true⟩) := by
  have hs' : ¬(s = "" ∨ jsTrim s = "") := by
    rintro (rfl | h)
    · exact hs rfl
    · exact hs h
  have hv' : ¬(vid = "" ∨ jsTrim vid = "") := by
    rintro (rfl | h)
    · exact hv rfl
    · exact hv h
  refine ⟨?_, ?_, ?_, ?_, ?_, ?_⟩
  · cases hit : searchItemsValid body <;>
      simp [searchHandler, makeYouTubeApiCall, hs', hmissS, hqs, hok, hit]
  · intro hit
    simp [searchHandler, makeYouTubeApiCall, hs', hmissS, hqs, hok, hit]
  · intro hit
    simp [searchHandler, makeYouTubeApiCall, hs', hmissS, hqs, hok, hit]
  · cases hit : videoItemsMissing body <;>
      simp [videoHandler, makeYouTubeApiCall, hv', hmissV, hqs, hok, hit]
  · intro hit
    simp [videoHandler, makeYouTubeApiCall, hv', hmissV, hqs, hok, hit]
  · intro hit
    simp [videoHandler, makeYouTubeApiCall, hv', hmissV, hqs, hok, hit]

/-- `C3` amended witness: a shape-valid body is cached and served 200 on
both routes. -/
theorem upstream_success_write_through_amended_witness :
    searchHandler (some "cats") none (.resp 200 true "" (some okItemsBody)) 0 []
        ⟨false, 0⟩ =
      ⟨200, okItemsBody,
       cacheSet [] 0 (searchCacheKey "cats" (effMaxResults none)) okItemsBody,
       ⟨false, 0⟩, true⟩ ∧
    videoHandler "abc" (.resp 200 true "" (some okItemsBody)) 0 [] ⟨false, 0⟩ =
      ⟨200, okItemsBody, cacheSet [] 0 (videoCacheKey "abc") okItemsBody,
       ⟨false, 0⟩, true⟩ := by
  have h := upstream_success_write_through_amended "cats" "abc" none 0 [] ⟨false, 0⟩
    200 "" okItemsBody (by decide) (by decide) rfl rfl rfl rfl
  exact ⟨h.2.1 rfl, h.2.2.2.2.1 rfl⟩

end Proxy

namespace Proxy

theorem callCatch_cache (msg : String) (now : Int) (key : String) (c : Cache)
    (q : QuotaSt) : (callCatch msg now key c q).cache = c := by
  unfold callCatch
  split <;> rfl

theorem mkCall_cache_or_set (f : Fetched) (now : Int) (key : String) (c : Cache)
    (q : QuotaSt) :
    (makeYouTubeApiCall f now key c q).cache = c ∨
    ∃ body, fetchedBody f = some body ∧
      (makeYouTubeApiCall f now key c q).cache = cacheSet c now key body := by
  cases f with
  | netError msg => exact Or.inl (callCatch_cache _ _ _ _ _)
  | resp status ctJson raw parsed =>
    cases parsed with
    | none =>
      simp only [makeYouTubeApiCall]
      split
      · exact Or.inl (callCatch_cache _ _ _ _ _)
      · exact Or.inl (callCatch_cache _ _ _ _ _)
    | some data =>
      simp only [makeYouTubeApiCall]
      split
      · exact Or.inl (callCatch_cache _ _ _ _ _)
      · split
        · split
          · split
            · exact Or.inl rfl
            · exact Or.inl rfl
          · exact Or.inl (callCatch_cache _ _ _ _ _)
        · exact Or.inr ⟨data, rfl, rfl⟩

theorem mem_cacheSet_cases (kv : String × CEntry) (c : Cache) (now : Int)
    (k : String) (p : Payload) (h : kv ∈ cacheSet c now k p) :
    kv ∈ c ∨ kv.2.payload = p := by
  unfold cacheSet at h
  rcases List.mem_cons.mp h with h | h
  · right
    rw [h]
  · left
    exact (List.mem_filter.mp h).1

theorem searchHandler_cache_provenance (q mr : Option String) (f : Fetched)
    (now : Int) (c : Cache) (qs : QuotaSt) (kv : String × CEntry)
    (h : kv ∈ (searchHandler q mr f now c qs).cache) :
    kv ∈ c ∨ fetchedBody f = some kv.2.payload := by
  have step : ∀ key, kv ∈ (makeYouTubeApiCall f now key c qs).cache →
      kv ∈ c ∨ fetchedBody f = some kv.2.payload := by
    intro key hk
    rcases mkCall_cache_or_set f now key c qs with hc | ⟨body, hb, hc⟩
    · rw [hc] at hk
      exact Or.inl hk
    · rw [hc] at hk
      rcases mem_cacheSet_cases kv c now key body hk with h' | h'
      · exact Or.inl h'
      · right
        rw [hb, h']
  cases q with
  | none => exact Or.inl h
  | some s =>
    simp only [searchHandler] at h
    split at h
    · exact Or.inl h
    · split at h
      · exact Or.inl h
      · split at h
        · exact Or.inl h
        · split at h
          · split at h
            · exact step _ h
            · exact step _ h
          · split at h
            · exact step _ h
            · exact step _ h

theorem videoHandler_cache_provenance (vid : String) (f : Fetched)
    (now : Int) (c : Cache) (qs : QuotaSt) (kv : String × CEntry)
    (h : kv ∈ (videoHandler vid f now c qs).cache) :
    kv ∈ c ∨ fetchedBody f = some kv.2.payload := by
  have step : ∀ key, kv ∈ (makeYouTubeApiCall f now key c qs).cache →
      kv ∈ c ∨ fetchedBody f = some kv.2.payload := by
    intro key hk
    rcases mkCall_cache_or_set f now key c qs with hc | ⟨body, hb, hc⟩
    · rw [hc] at hk
      exact Or.inl hk
    · rw [hc] at hk
      rcases mem_cacheSet_cases kv c now key body hk with h' | h'
      · exact Or.inl h'
      · right
        rw [hb, h']
  simp only [videoHandler] at h
  split at h
  · exact Or.inl h
  · split at h
    · exact Or.inl h
    · split at h
      · exact Or.inl h
      · split at h
        · split at h
          · exact step _ h
          · exact step _ h
        · split at h
          · exact step _ h
          · exact step _ h

/-- `C10`: the stored payloads are raw parsed upstream bodies only — any
entry of the cache after a search or video-detail request either was
already present or holds exactly the upstream oracle's parsed body; the
annotated response copies (`_fromCache` / `_quotaExceeded` / `_apiError`
spreads) are never written back; the flush route only empties the store. -/
theorem raw_payload_cache_invariant (q mr : Option String) (vid : String)
    (f : Fetched) (now : Int) (c : Cache) (qs : QuotaSt) (kv kv2 : String × CEntry)
    (h1 : kv ∈ (searchHandler q mr f now c qs).cache)
    (h2 : kv2 ∈ (videoHandler vid f now c qs).cache) :
    (kv ∈ c ∨ fetchedBody f = some kv.2.payload) ∧
    (kv2 ∈ c ∨ fetchedBody f = some kv2.2.payload) ∧
    (flushHandler c qs).cache = [] :=
  ⟨searchHandler_cache_provenance q mr f now c qs kv h1,
   videoHandler_cache_provenance vid f now c qs kv2 h2, rfl⟩

/-- `C10` witness: fresh-success runs populate both keys with the raw body. -/
theorem raw_payload_cache_invariant_witness :
    (("search_cats_10", (⟨okItemsBody, 7200000⟩ : CEntry)) ∈ ([] : Cache) ∨
      fetchedBody (.resp 200 true "" (some okItemsBody)) =
        some ("search_cats_10", (⟨okItemsBody, 7200000⟩ : CEntry)).2.payload) ∧
    (("video_abc", (⟨okItemsBody, 7200000⟩ : CEntry)) ∈ ([] : Cache) ∨
      fetchedBody (.resp 200 true "" (some okItemsBody)) =
        some ("video_abc", (⟨okItemsBody, 7200000⟩ : CEntry)).2.payload) ∧
    (flushHandler [] ⟨false, 0⟩).cache = [] := by
  have hcs : (searchHandler (some "cats") none (.resp 200 true "" (some okItemsBody))
      0 [] ⟨false, 0⟩).cache = [("search_cats_10", (⟨okItemsBody, 7200000⟩ : CEntry))] := rfl
  have hcv : (videoHandler "abc" (.resp 200 true "" (some okItemsBody))
      0 [] ⟨false, 0⟩).cache = [("video_abc", (⟨okItemsBody, 7200000⟩ : CEntry))] := rfl
  refine raw_payload_cache_invariant (some "cats") none "abc"
    (.resp 200 true "" (some okItemsBody)) 0 [] ⟨false, 0⟩
    ("search_cats_10", ⟨okItemsBody, 7200000⟩)
    ("video_abc", ⟨okItemsBody, 7200000⟩) ?_ ?_
  · rw [hcs]
    exact List.mem_cons_self _ _
  · rw [hcv]
    exact List.mem_cons_self _ _

end Proxy
